import Mathlib

/-!
Shallow embedding of the Unicrium blockchain node (Python sources under
`src/`) and verification of a set of claims about it.

Modelling conventions:
* Python `int` is `Int` (arbitrary precision in both).
* Python `dict` is an insertion-ordered association list `List (key × value)`;
  `alookup`/`aset` mirror `d[k]` / `d[k] = v` (update-in-place keeps the
  position of an existing key, a new key is appended, as CPython does).
* Python's stable `list.sort(key=...)` is `sortByKey`, a stable insertion
  sort by an integer key; any two stable sorts by the same key agree, so
  this is observationally the sort the source performs.
* The external crypto stack (`ecdsa` + keccak in `src/core/crypto.py`) is
  idealized as a perfect signature scheme: a signature value records the
  public key and the exact signed payload, and verification succeeds
  exactly on that pair.  `hash_object` (SHA-256 of canonical JSON) is
  idealized as a collision-free injective hash, so a transaction id is
  identified with the signable payload it hashes.
* Hash strings produced by the Merkle code are modelled by a free term
  algebra `HashV` (leaf strings, string concatenation, hashing), which is
  the standard collision-free idealization of SHA-256 over fixed-width
  hex strings.
-/

namespace Unicrium

/-- Python `dict.get(k)`: first binding of `k` in an insertion-ordered
association list. -/
def alookup {α : Type} (l : List (String × α)) (k : String) : Option α :=
  match l with
  | [] => none
  | (k', v) :: rest => if k = k' then some v else alookup rest k

/-- Python `d[k] = v`: update in place if the key exists (keeping its
position), otherwise append the new binding. -/
def aset {α : Type} (l : List (String × α)) (k : String) (v : α) :
    List (String × α) :=
  match l with
  | [] => [(k, v)]
  | (k', v') :: rest =>
      if k = k' then (k, v) :: rest else (k', v') :: aset rest k v

/-- Python `k in d`. -/
def amem {α : Type} (l : List (String × α)) (k : String) : Bool :=
  (alookup l k).isSome

/-- Python `del d[k]` (removes every binding of `k`; CPython removes the
unique one). -/
def adel {α : Type} (l : List (String × α)) (k : String) :
    List (String × α) :=
  l.filter (fun kv => kv.1 ≠ k)

/-- Stable insertion of `x` after all accumulated elements whose key is
`≤ key x`, mirroring where a stable sort places a later element. -/
def stableInsert {α : Type} (key : α → Int) (x : α) : List α → List α
  | [] => [x]
  | y :: ys =>
      if key y ≤ key x then y :: stableInsert key x ys else x :: y :: ys

/-- Stable sort by an integer key, ascending: the model of Python's stable
`list.sort(key=...)`. -/
def sortByKey {α : Type} (key : α → Int) (l : List α) : List α :=
  l.foldl (fun acc x => stableInsert key x acc) []

/-! ## Gas system (`src/core/gas.py`) -/

/-- `GasConfig.__init__`: the cost table of the gas system. -/
structure GasConfig where
  TX_BASE : Int := 1000
  TRANSFER : Int := 2000
  STAKE : Int := 5000
  UNSTAKE : Int := 5000
  DELEGATE : Int := 3000
  UNDELEGATE : Int := 3000
  VOTE : Int := 1000
  SMART_CONTRACT_BASE : Int := 10000
  BYTE_COST : Int := 10
  SIGNATURE_VERIFY : Int := 500
  STORAGE_WRITE : Int := 100
  STORAGE_READ : Int := 10
  MAX_GAS_PER_TX : Int := 1000000
  MIN_GAS_PRICE : Int := 1
  DEFAULT_GAS_PRICE : Int := 10
deriving DecidableEq

/-- The default `GasConfig()`. -/
def defaultGasConfig : GasConfig := {}

/-- `GasConfig.get_tx_type_cost`: dictionary lookup over the `TxType`
string-enum (the enum members hash and compare as their string values),
with the `TX_BASE` default for unknown types. -/
def GasConfig.get_tx_type_cost (c : GasConfig) (tx_type : String) : Int :=
  if tx_type = "transfer" then c.TRANSFER
  else if tx_type = "stake" then c.STAKE
  else if tx_type = "unstake" then c.UNSTAKE
  else if tx_type = "delegate" then c.DELEGATE
  else if tx_type = "undelegate" then c.UNDELEGATE
  else if tx_type = "vote" then c.VOTE
  else if tx_type = "smart_contract" then c.SMART_CONTRACT_BASE
  else c.TX_BASE

/-- `GasCalculator.calculate_tx_gas`. -/
def calculate_tx_gas (c : GasConfig) (tx_type : String)
    (data_size storage_write storage_read : Int) : Int :=
  c.TX_BASE + c.get_tx_type_cost tx_type
    + data_size * c.BYTE_COST
    + storage_write * c.STORAGE_WRITE
    + storage_read * c.STORAGE_READ
    + c.SIGNATURE_VERIFY

/-- `GasCalculator.calculate_fee` with an explicit gas price. -/
def calculate_fee_priced (c : GasConfig) (gas_used gas_price : Int) : Int :=
  gas_used * max gas_price c.MIN_GAS_PRICE

/-- `GasCalculator.calculate_fee` with `gas_price=None`
(the call form used by `Blockchain.add_transaction`): the default gas
price (10) is substituted before the minimum is enforced. -/
def calculate_fee (c : GasConfig) (gas_used : Int) : Int :=
  calculate_fee_priced c gas_used c.DEFAULT_GAS_PRICE

/-- The per-type base-cost table exactly as the claim enumerates it
(transfer 2000; stake/unstake 5000; delegate/undelegate 3000; vote 1000;
contract 10000; any other type 1000).  Spec-side definition, used to
compare the claimed formula with `calculate_tx_gas`. -/
def claimTypeCost (tx_type : String) : Int :=
  if tx_type = "transfer" then 2000
  else if tx_type = "stake" then 5000
  else if tx_type = "unstake" then 5000
  else if tx_type = "delegate" then 3000
  else if tx_type = "undelegate" then 3000
  else if tx_type = "vote" then 1000
  else if tx_type = "smart_contract" then 10000
  else 1000

/-- The total gas formula exactly as the claim states it: per-type base
cost plus `data_size × 10` plus storage costs plus the signature constant
500 — with no extra `TX_BASE` term.  Spec-side definition. -/
def claimTxGas (tx_type : String)
    (data_size storage_write storage_read : Int) : Int :=
  claimTypeCost tx_type + data_size * 10
    + storage_write * 100 + storage_read * 10 + 500

/-! ## Transactions and idealized signatures (`src/blockchain/models.py`,
`src/core/crypto.py`) -/

/-- A secp256k1 keypair (`KeyPair`), abstracted: only the identities of the
two keys matter to the embedded code. -/
structure KeyPair where
  private_key : String
  public_key : String
deriving DecidableEq

/-- The signable payload of a transaction: exactly the ten fields that
`Transaction.payload()` puts into the dict that is canonical-JSON
serialized, keccak-hashed and ECDSA-signed.  Note that `gas_price`, the
contract fields, the batch fields, `version` and `extra_data` are NOT part
of it. -/
structure TxPayload where
  sender : String
  sender_pubkey : Option String
  nonce : Int
  tx_type : String
  amount : Int
  recipient : Option String
  fee : Int
  gas_limit : Int
  data : List (String × String)
  timestamp : Int
deriving DecidableEq

/-- An idealized ECDSA signature value over a canonical-JSON dict of type
`π`.  `empty` is the empty string `""` (unsigned default, falsy in
Python); `raw s` is an arbitrary non-empty string that is not a real
signature (e.g. the `"genesis"` sentinel); `made pk p` is the signature
produced by the key with public part `pk` over payload `p`.  Verification
under public key `pk` for payload `p` succeeds exactly on `made pk p`,
the standard perfect-signature idealization of ECDSA. -/
inductive Sig (π : Type) : Type where
  | empty : Sig π
  | raw : String → Sig π
  | made : String → π → Sig π
deriving DecidableEq

/-- Idealized `verify_dict_signature(public_key, payload, sig)`. -/
def verifySig {π : Type} [DecidableEq π] (pubkey : String) (payload : π) :
    Sig π → Bool
  | .made pk p => decide (pk = pubkey ∧ p = payload)
  | _ => false

/-- Transaction signatures. -/
abbrev TxSig : Type := Sig TxPayload

/-- `Transaction` (`src/blockchain/models.py`).  The free-form `data` dict
is modelled as a string-to-string association list; `bytes` fields as byte
lists. -/
structure Transaction where
  sender : String
  sender_pubkey : Option String := none
  nonce : Int := 0
  tx_type : String := ""
  amount : Int := 0
  recipient : Option String := none
  fee : Int := 0
  gas_limit : Int := 100000
  gas_price : Int := 1
  data : List (String × String) := []
  signature : TxSig := .empty
  timestamp : Int := 0
  contract_address : Option String := none
  contract_bytecode : Option (List Nat) := none
  contract_input : Option (List Nat) := none
  contract_value : Int := 0
  batch_recipients : List String := []
  batch_amounts : List Int := []
  version : Int := 1
  extra_data : List Nat := []
deriving DecidableEq

instance : Inhabited Transaction := ⟨{ sender := "" }⟩

/-- `Transaction.payload()`. -/
def Transaction.payload (t : Transaction) : TxPayload :=
  { sender := t.sender
    sender_pubkey := t.sender_pubkey
    nonce := t.nonce
    tx_type := t.tx_type
    amount := t.amount
    recipient := t.recipient
    fee := t.fee
    gas_limit := t.gas_limit
    data := t.data
    timestamp := t.timestamp }

/-- `Transaction.txid()`: the SHA-256 of the canonical JSON of the payload.
Under the collision-free-hash idealization a txid is identified with the
payload itself (two transactions have equal txids iff equal payloads,
exactly as for an injective hash). -/
def Transaction.txid (t : Transaction) : TxPayload := t.payload

/-- `Transaction.sign`: signs the payload with `sender_pubkey` overridden
by the keypair's public key, then stores the signature and that public key
on the transaction. -/
def Transaction.sign (t : Transaction) (kp : KeyPair) : Transaction :=
  let payload_with_pubkey :=
    { t.payload with sender_pubkey := some kp.public_key }
  { t with
    signature := .made kp.public_key payload_with_pubkey
    sender_pubkey := some kp.public_key }

/-- `Transaction.verify_signature`: false when the signature or the public
key is empty, otherwise idealized ECDSA verification of the current
payload against the stored signature under the stored public key. -/
def Transaction.verify_signature (t : Transaction) : Bool :=
  match t.signature, t.sender_pubkey with
  | .empty, _ => false
  | _, none => false
  | s, some pk => verifySig pk t.payload s

/-! ## Ledger (`src/storage/ledger.py`) -/

/-- `Account`: the fields the claims touch (balance, nonce, staked,
reserved_balance); the dormant contract-metadata fields carry no state in
any embedded operation and are omitted. -/
structure Account where
  address : String
  balance : Int := 0
  nonce : Int := 0
  staked : Int := 0
  reserved_balance : Int := 0
deriving DecidableEq

/-- `Validator` (the dataclass in `src/storage/ledger.py`).  The float
`commission_rate` is modelled as an exact rational. -/
structure Validator where
  address : String
  public_key : String
  stake : Int
  delegated_stake : Int := 0
  commission_rate : ℚ := 0
  jailed : Bool := false
  jailed_until : Int := 0
deriving DecidableEq

/-- `Ledger`: accounts and validators as insertion-ordered dicts keyed by
address.  (`delegations`/`unbonding` never interact with the claims'
operations and are omitted.) -/
structure Ledger where
  accounts : List (String × Account) := []
  validators : List (String × Validator) := []
deriving DecidableEq

/-- `Ledger.get_or_create_account`: materializes a zero account on first
use.  Returns the (possibly grown) ledger together with the account. -/
def Ledger.get_or_create_account (lg : Ledger) (address : String) :
    Ledger × Account :=
  match alookup lg.accounts address with
  | some acc => (lg, acc)
  | none =>
      let acc : Account := { address := address }
      ({ lg with accounts := aset lg.accounts address acc }, acc)

/-- `Ledger.get_balance` (creates the account like the source). -/
def Ledger.get_balance (lg : Ledger) (address : String) : Ledger × Int :=
  let (lg', acc) := lg.get_or_create_account address
  (lg', acc.balance)

/-- `Ledger.get_nonce` (creates the account like the source). -/
def Ledger.get_nonce (lg : Ledger) (address : String) : Ledger × Int :=
  let (lg', acc) := lg.get_or_create_account address
  (lg', acc.nonce)

/-- `Ledger.has_sufficient_balance`. -/
def Ledger.has_sufficient_balance (lg : Ledger) (address : String)
    (amount : Int) : Ledger × Bool :=
  let (lg', bal) := lg.get_balance address
  (lg', decide (bal ≥ amount))

/-- `Ledger.increment_nonce`. -/
def Ledger.increment_nonce (lg : Ledger) (address : String) : Ledger :=
  let (lg', acc) := lg.get_or_create_account address
  { lg' with accounts := aset lg'.accounts address { acc with nonce := acc.nonce + 1 } }

/-- Python `int(x)` on a non-integral rational: truncation toward zero
(`num / den` in truncated integer division).  The source computes
`int(val.stake * fraction)` where `fraction` is a float; the float product
is modelled as the exact rational product. -/
def pyTrunc (q : ℚ) : Int := Int.tdiv q.num q.den

/-- `Ledger.slash_validator`: for a registered validator, decrement its
stake by `int(stake * fraction)` and return that amount; otherwise return
0.  (The `reason` string is unused by the source body and omitted.) -/
def Ledger.slash_validator (lg : Ledger) (validator_addr : String)
    (fraction : ℚ) : Ledger × Int :=
  match alookup lg.validators validator_addr with
  | some v =>
      let slash_amount := pyTrunc ((v.stake : ℚ) * fraction)
      let v' : Validator := { v with stake := v.stake - slash_amount }
      ({ lg with validators := aset lg.validators validator_addr v' },
       slash_amount)
  | none => (lg, 0)

/-! ## Mempool (`src/core/mempool.py`)

Dict keys that are txids are `TxPayload` values (see `Transaction.txid`).
Association lists keyed by `TxPayload` reuse the generic helpers below. -/

/-- `alookup` for txid-keyed dicts. -/
def plookup {α : Type} (l : List (TxPayload × α)) (k : TxPayload) : Option α :=
  match l with
  | [] => none
  | (k', v) :: rest => if k = k' then some v else plookup rest k

/-- `aset` for txid-keyed dicts. -/
def pset {α : Type} (l : List (TxPayload × α)) (k : TxPayload) (v : α) :
    List (TxPayload × α) :=
  match l with
  | [] => [(k, v)]
  | (k', v') :: rest =>
      if k = k' then (k, v) :: rest else (k', v') :: pset rest k v

/-- `del d[k]` for txid-keyed dicts. -/
def pdel {α : Type} (l : List (TxPayload × α)) (k : TxPayload) :
    List (TxPayload × α) :=
  l.filter (fun kv => kv.1 ≠ k)

/-- `Mempool`: primary txid map, per-sender nonce-sorted txid lists,
fee-descending index, insertion timestamps, and the size/age limits. -/
structure Mempool where
  max_size : Nat := 10000
  max_age_seconds : Int := 3600
  transactions : List (TxPayload × Transaction) := []
  by_sender : List (String × List TxPayload) := []
  by_fee : List (Int × TxPayload) := []
  insertion_time : List (TxPayload × Int) := []
deriving DecidableEq

/-- `Mempool.size`. -/
def Mempool.mpsize (mp : Mempool) : Nat := mp.transactions.length

/-- `Mempool.remove`: removes a transaction from every index. -/
def Mempool.remove (mp : Mempool) (tx : Transaction) : Mempool × Bool :=
  let txid := tx.txid
  if (plookup mp.transactions txid).isNone then (mp, false)
  else
    let transactions := pdel mp.transactions txid
    let insertion_time := pdel mp.insertion_time txid
    let by_sender :=
      match alookup mp.by_sender tx.sender with
      | none => mp.by_sender
      | some tids =>
          let tids' := tids.filter (fun tid => tid ≠ txid)
          if tids'.isEmpty then adel mp.by_sender tx.sender
          else aset mp.by_sender tx.sender tids'
    let by_fee := mp.by_fee.filter (fun ft => ft.2 ≠ txid)
    ({ mp with transactions := transactions, insertion_time := insertion_time,
               by_sender := by_sender, by_fee := by_fee }, true)

/-- `Mempool._evict_old`: removes every transaction strictly older than
`max_age_seconds`; returns whether anything was evicted. -/
def Mempool.evict_old (mp : Mempool) (now : Int) : Mempool × Bool :=
  let evicted := (mp.insertion_time.filter
    (fun ti => now - ti.2 > mp.max_age_seconds)).map (·.1)
  let mp' := evicted.foldl
    (fun m tid =>
      match plookup m.transactions tid with
      | some tx => (m.remove tx).1
      | none => m) mp
  (mp', !evicted.isEmpty)

/-- The nonce of the transaction stored under a txid (used as the sort key
when re-sorting a sender's list; a missing txid cannot occur for the
states the source builds and defaults to 0). -/
def Mempool.nonceOf (transactions : List (TxPayload × Transaction))
    (tid : TxPayload) : Int :=
  match plookup transactions tid with
  | some tx => tx.nonce
  | none => 0

/-- `Mempool.add`: duplicate check, eviction when full, then insertion
into the primary map, the (nonce-sorted) sender index and the
(fee-descending) fee index.  `now` is `int(time.time())`. -/
def Mempool.add (mp : Mempool) (tx : Transaction) (now : Int) :
    Mempool × Bool :=
  let txid := tx.txid
  if (plookup mp.transactions txid).isSome then (mp, false)
  else
    let step2 : Option Mempool :=
      if mp.mpsize ≥ mp.max_size then
        let (mp', any) := mp.evict_old now
        if any then some mp' else none
      else some mp
    match step2 with
    | none => (mp, false)
    | some mp =>
        let transactions := pset mp.transactions txid tx
        let insertion_time := pset mp.insertion_time txid now
        let sender_list := (alookup mp.by_sender tx.sender).getD [] ++ [txid]
        let sender_sorted :=
          sortByKey (fun tid => Mempool.nonceOf transactions tid) sender_list
        let by_sender := aset mp.by_sender tx.sender sender_sorted
        let by_fee := sortByKey (fun ft => -ft.1) (mp.by_fee ++ [(tx.fee, txid)])
        ({ mp with transactions := transactions,
                   insertion_time := insertion_time,
                   by_sender := by_sender, by_fee := by_fee }, true)

/-- The per-sender walk inside `Mempool.get_ready_txs`: follow the
nonce-sorted txid list, keeping transactions while their nonces match the
running expected nonce, stopping at the first mismatch (`break`).  A txid
absent from the primary map would raise `KeyError` in the source and
cannot occur for the states it builds; the model stops the walk there. -/
def readyWalk (transactions : List (TxPayload × Transaction)) :
    Int → List TxPayload → List Transaction
  | _, [] => []
  | expected, tid :: rest =>
      match plookup transactions tid with
      | some tx =>
          if tx.nonce = expected then
            tx :: readyWalk transactions (expected + 1) rest
          else []
      | none => []

/-- `Mempool.get_ready_txs`: harvest each sender's contiguous-nonce run
starting from `expected_nonces.get(sender, 0)`, sort the harvest by
descending fee (stable), and truncate to `max_count`. -/
def Mempool.get_ready_txs (mp : Mempool)
    (expected_nonces : List (String × Int)) (max_count : Nat) :
    List Transaction :=
  let ready := mp.by_sender.foldl
    (fun acc sp =>
      acc ++ readyWalk mp.transactions ((alookup expected_nonces sp.1).getD 0) sp.2)
    []
  (sortByKey (fun tx => -tx.fee) ready).take max_count

/-! ## Merkle tree (`src/core/merkle.py`)

Hash strings are modelled by the free term algebra `HashV`:
`str s` is a leaf data string, `cat a b` is Python string concatenation
`a + b`, and `hashed v` is `hash_object(v)`.  Distinct terms denote
distinct strings (collision-freeness of SHA-256 over equal-width hex
strings and injectivity of concatenation at fixed width). -/

/-- Free algebra of hash strings. -/
inductive HashV : Type where
  | str : String → HashV
  | cat : HashV → HashV → HashV
  | hashed : HashV → HashV
deriving DecidableEq

/-- One pairing pass of `MerkleTree._build_tree`'s inner loop: hash
adjacent pairs (the caller has already made the length even). -/
def pairLevel : List HashV → List HashV
  | a :: b :: rest => HashV.hashed (HashV.cat a b) :: pairLevel rest
  | [x] => [x]
  | [] => []

/-- The `while len(current_level) > 1` loop of `MerkleTree._build_tree`:
record the level (BEFORE duplicating its odd tail), duplicate the last
element if the length is odd, pair-hash, repeat.  Returns the recorded
levels (`self.tree`) and the root.  `fuel` bounds the number of rounds;
`buildTree` supplies the list length, which is ample since every round at
least halves a list of length ≥ 2. -/
def buildLoop (fuel : Nat) (current : List HashV)
    (acc : List (List HashV)) : List (List HashV) × HashV :=
  match fuel with
  | 0 => (acc, (current.headD (HashV.str "")))
  | fuel + 1 =>
      if current.length ≤ 1 then (acc, current.headD (HashV.str ""))
      else
        let acc := acc ++ [current]
        let current :=
          if current.length % 2 = 1 then
            current ++ [current.getLastD (HashV.str "")]
          else current
        buildLoop fuel (pairLevel current) acc

/-- `MerkleTree.__init__` / `_build_tree` for a non-empty leaf list:
the recorded levels and the root.  (The empty case returns
`hash_object("EMPTY_TREE")` and records nothing.) -/
def buildTree (data_list : List HashV) : List (List HashV) × HashV :=
  if data_list.isEmpty then ([], HashV.hashed (HashV.str "EMPTY_TREE"))
  else buildLoop data_list.length data_list []

/-- `MerkleTree.get_proof`: walk the recorded levels from leaf to root;
at each level add the sibling (if its index is inside the recorded level)
tagged with its position, and halve the index. -/
def get_proof (tree : List (List HashV)) (index : Nat) :
    List (HashV × String) :=
  (tree.foldl
    (fun (st : List (HashV × String) × Nat) level =>
      let current_index := st.2
      let (sibling_index, position) :=
        if current_index % 2 = 0 then (current_index + 1, "right")
        else (current_index - 1, "left")
      let proof :=
        match level.get? sibling_index with
        | some h => st.1 ++ [(h, position)]
        | none => st.1
      (proof, current_index / 2))
    ([], index)).1

/-- `MerkleTree.verify_proof`: reconstruct the root bottom-up, placing the
sibling on the recorded side, and compare with the expected root. -/
def verify_proof (tx_hash : HashV) (proof : List (HashV × String))
    (root : HashV) : Bool :=
  decide ((proof.foldl
    (fun current_hash sp =>
      if sp.2 = "left" then HashV.hashed (HashV.cat sp.1 current_hash)
      else HashV.hashed (HashV.cat current_hash sp.1))
    tx_hash) = root)

/-! ## Blocks (`src/blockchain/models.py`) -/

/-- The dict returned by `Block.header()` (the signable block payload).
-/
structure BlockHeader where
  height : Int
  prev_hash : String
  timestamp : Int
  proposer : String
  proposer_pubkey : String
  state_root : String
  validator_set_hash : String
  next_validator_set_hash : String
  consensus_hash : String
  app_hash : String
  tx_count : Nat
  tx_merkle_root : String
  total_fees : Int
  block_reward : Int
  contracts_deployed : Int
  contract_calls : Int
  contract_gas_used : Int
  vm_version : String
  protocol_version : Int
deriving DecidableEq

/-- Block signatures. -/
abbrev BlockSig : Type := Sig BlockHeader

/-- `Block` (`src/blockchain/models.py`). -/
structure Block where
  height : Int
  prev_hash : String
  timestamp : Int
  proposer : String
  proposer_pubkey : String := ""
  transactions : List Transaction := []
  tx_root : String := ""
  state_root : String := ""
  validator_set_hash : String := ""
  next_validator_set_hash : String := ""
  consensus_hash : String := ""
  app_hash : String := ""
  signature : BlockSig := .empty
  hash : String := ""
  total_fees : Int := 0
  block_reward : Int := 0
  contracts_deployed : Int := 0
  contract_calls : Int := 0
  contract_gas_used : Int := 0
  vm_version : String := "none"
  protocol_version : Int := 1
  extra_data : String := ""
  reserved_field1 : Int := 0
  reserved_field2 : Int := 0
  reserved_field3 : String := ""
deriving DecidableEq

/-- `Block.header()`. -/
def Block.header (b : Block) : BlockHeader :=
  { height := b.height
    prev_hash := b.prev_hash
    timestamp := b.timestamp
    proposer := b.proposer
    proposer_pubkey := b.proposer_pubkey
    state_root := b.state_root
    validator_set_hash := b.validator_set_hash
    next_validator_set_hash := b.next_validator_set_hash
    consensus_hash := b.consensus_hash
    app_hash := b.app_hash
    tx_count := b.transactions.length
    tx_merkle_root := b.tx_root
    total_fees := b.total_fees
    block_reward := b.block_reward
    contracts_deployed := b.contracts_deployed
    contract_calls := b.contract_calls
    contract_gas_used := b.contract_gas_used
    vm_version := b.vm_version
    protocol_version := b.protocol_version }

/-- `Block.verify_signature`: false on an empty signature or empty
proposer pubkey, otherwise idealized verification of the current header
under the stored proposer pubkey. -/
def Block.verify_signature (b : Block) : Bool :=
  match b.signature with
  | .empty => false
  | s => if b.proposer_pubkey = "" then false
         else verifySig b.proposer_pubkey b.header s

/-! ## Blockchain (`src/blockchain/blockchain.py`) -/

/-- `BlockchainConfig` (the constants the embedded operations read). -/
structure BlockchainConfig where
  MAX_SUPPLY : Int := 100000000 * 10 ^ 8
  GENESIS_SUPPLY : Int := 16400000 * 10 ^ 8
  INITIAL_BLOCK_REWARD : Int := 1 * 10 ^ 8
  HALVING_INTERVAL : Nat := 31536000
  MIN_VALIDATOR_STAKE : Int := 1000 * 10 ^ 8
  MAX_TIMESTAMP_DRIFT : Int := 60
deriving DecidableEq

/-- The default `BlockchainConfig()`. -/
def defaultConfig : BlockchainConfig := {}

/-- Lookup in the int-keyed `block:<height>` store. -/
def ilookup {α : Type} (l : List (Int × α)) (k : Int) : Option α :=
  match l with
  | [] => none
  | (k', v) :: rest => if k = k' then some v else ilookup rest k

/-- Write to the int-keyed `block:<height>` store. -/
def iset {α : Type} (l : List (Int × α)) (k : Int) (v : α) :
    List (Int × α) :=
  match l with
  | [] => [(k, v)]
  | (k', v') :: rest =>
      if k = k' then (k, v) :: rest else (k', v') :: iset rest k v

/-- The 64-character `"0" * 64` sentinel hash. -/
def zeros64 : String := String.mk (List.replicate 64 '0')

/-- The observable state of a `Blockchain` instance together with its
persistent storage: the live ledger, the block store and metadata (the
three keyspaces of `PersistentStorage`), the in-memory block window, the
mempool, and the `total_minted` counter.  The EVM adapter's internal
state (an external py-evm collaborator that never writes the ledger) is
not part of the modelled state. -/
structure ChainState where
  config : BlockchainConfig := {}
  ledger : Ledger := {}
  storageBlocks : List (Int × Block) := []
  savedState : Ledger := {}
  metaHeight : Int := -1
  metaLatestHash : String := ""
  metaTotalMinted : Int := 0
  blocks : List Block := []
  mempool : Mempool := {}
  total_minted : Int := 0
deriving DecidableEq

/-- `Blockchain.get_height`: the metadata height. -/
def ChainState.get_height (s : ChainState) : Int := s.metaHeight

/-- `Blockchain._validate_block`: ONLY two checks — the height must be
`current + 1` and `prev_hash` must equal the stored previous block's hash
(`"0" * 64` when no block is stored at `height - 1`). -/
def ChainState.validate_block (s : ChainState) (block : Block) : Bool :=
  let expected_height := s.get_height + 1
  if block.height ≠ expected_height then false
  else
    let expected_prev_hash :=
      match ilookup s.storageBlocks (block.height - 1) with
      | some prev_block => prev_block.hash
      | none => zeros64
    decide (block.prev_hash = expected_prev_hash)

/-- `Blockchain.validate_transaction`: signature, exact-nonce and
`amount + fee` balance checks (threading the ledger because the nonce and
balance reads materialize the sender's account). -/
def ChainState.validate_transaction (lg : Ledger) (tx : Transaction) :
    Ledger × Bool :=
  if !tx.verify_signature then (lg, false)
  else
    let (lg, expected_nonce) := lg.get_nonce tx.sender
    if tx.nonce ≠ expected_nonce then (lg, false)
    else
      let total_cost := tx.amount + tx.fee
      let (lg, bal) := lg.get_balance tx.sender
      if bal < total_cost then (lg, false) else (lg, true)

/-- `len(json.dumps(d).encode())` for a string-to-string dict with ASCII
keys and values needing no JSON escaping: `{}` is 2 bytes, otherwise the
braces plus `"k": "v"` per entry plus `", "` between entries. -/
def jsonLen (d : List (String × String)) : Int :=
  match d with
  | [] => 2
  | _ => 2 + ((d.map (fun kv => (kv.1.length : Int) + kv.2.length + 6)).sum)
           + 2 * ((d.length : Int) - 1)

/-- `Blockchain.add_transaction`: signature, exact-nonce, gas-floor and
balance admission checks, then `Mempool.add`.  Returns the updated state
(the nonce/balance reads may have materialized the sender account) and
the admission result. -/
def ChainState.add_transaction (s : ChainState) (tx : Transaction)
    (now : Int) : ChainState × Bool :=
  if !tx.verify_signature then (s, false)
  else
    let (lg, expected_nonce) := s.ledger.get_nonce tx.sender
    if tx.nonce ≠ expected_nonce then ({ s with ledger := lg }, false)
    else
      let required_gas :=
        calculate_tx_gas defaultGasConfig tx.tx_type (jsonLen tx.data) 0 0
      if tx.gas_limit < required_gas then ({ s with ledger := lg }, false)
      else
        let gas_fee := calculate_fee defaultGasConfig required_gas
        let total_cost := tx.amount + tx.fee + gas_fee
        let (lg, ok) := lg.has_sufficient_balance tx.sender total_cost
        if !ok then ({ s with ledger := lg }, false)
        else
          let (mp, result) := s.mempool.add tx now
          ({ s with ledger := lg, mempool := mp }, result)

/-- `Blockchain.get_block_reward` for a non-negative height:
`era = height // HALVING_INTERVAL`, `reward = INITIAL_BLOCK_REWARD //
2**era` floored at 1, then clamped to the remaining supply when it would
overshoot `MAX_SUPPLY`. -/
def get_block_reward (cfg : BlockchainConfig) (total_minted : Int)
    (height : Nat) : Int :=
  let era := height / cfg.HALVING_INTERVAL
  let reward := cfg.INITIAL_BLOCK_REWARD / (2 ^ era : Int)
  let reward := if reward < 1 then 1 else reward
  if total_minted + reward > cfg.MAX_SUPPLY then
    max 0 (cfg.MAX_SUPPLY - total_minted)
  else reward

/-- The ledger effect of one iteration of `Blockchain.add_block`'s
transaction loop.  A `contract_deploy` transaction is routed to the EVM
adapter, which only touches EVM-internal state; then the sender's nonce
is incremented; the subsequent fee deduction calls the nonexistent
`Ledger.deduct_balance`, and the resulting `AttributeError` is swallowed
by the per-transaction handler, so the fee is never actually charged. -/
def addBlockTxStep (lg : Ledger) (tx : Transaction) : Ledger :=
  lg.increment_nonce tx.sender

/-- `Blockchain.add_block`: validate (height and prev-hash only), run the
transaction loop, credit the block reward to the proposer and grow
`total_minted`, append to the in-memory window (trimming to 101), persist
the block, the state snapshot and the metadata, and drop included txids
from the mempool's primary map (the source deletes from
`mempool.transactions` only, leaving the secondary indexes stale). -/
def ChainState.add_block (s : ChainState) (block : Block) :
    ChainState × Bool :=
  if !s.validate_block block then (s, false)
  else
    let ledger := block.transactions.foldl addBlockTxStep s.ledger
    let (ledger, total_minted) :=
      if block.block_reward > 0 then
        let (lg, acc) := ledger.get_or_create_account block.proposer
        let acc' := { acc with balance := acc.balance + block.block_reward }
        ({ lg with accounts := aset lg.accounts block.proposer acc' },
         s.total_minted + block.block_reward)
      else (ledger, s.total_minted)
    let blocks := s.blocks ++ [block]
    let blocks := if blocks.length > 101 then blocks.tail else blocks
    let mempool_transactions := block.transactions.foldl
      (fun m tx =>
        if (plookup m tx.txid).isSome then pdel m tx.txid else m)
      s.mempool.transactions
    ({ s with
        ledger := ledger
        total_minted := total_minted
        blocks := blocks
        storageBlocks := iset s.storageBlocks block.height block
        savedState := ledger
        metaHeight := block.height
        metaLatestHash := block.hash
        metaTotalMinted := total_minted
        mempool := { s.mempool with transactions := mempool_transactions } },
     true)

/-- The genesis allocations of `Blockchain._create_genesis_block`
(founder 5M, faucet 1M, treasury 10M, three validators of 100K UNM). -/
def genesisAllocations : List (String × Int) :=
  [("0xacffecb00b07a53d61c38edccd7f74de83e36bf0", 5000000 * 10 ^ 8),
   ("0x8aa829da6b4a5be2789e3ddeff569d6248e3e503", 1000000 * 10 ^ 8),
   ("0xe3e92fb0a0160e41be8d80bee4b6a81b422c1d4c", 10000000 * 10 ^ 8),
   ("0x8231d09a6766dc1d75a8261e2a64d31cf6c35a8c", 100000 * 10 ^ 8),
   ("0xf31d79f0fb66c3767da9285ddefee3a72ee267c6", 100000 * 10 ^ 8),
   ("0x0f9f8535e53944956b60127003e396c834b1f36d", 100000 * 10 ^ 8)]

/-- The genesis block of `Blockchain._create_genesis_block` (`now` is the
wall-clock creation time). -/
def genesisBlock (now : Int) : Block :=
  { height := 0
    prev_hash := zeros64
    timestamp := now
    proposer := "0xacffecb00b07a53d61c38edccd7f74de83e36bf0"
    proposer_pubkey := "cdaab1107e6f2031cae2d966b500a391c65e6e88ebe365d825509397b067bedff5c87e497a729aaf79329706ba5a0d599bd2288f5020746a1df4dd3b37ca8c4f"
    transactions := []
    tx_root := zeros64
    state_root := "genesis"
    validator_set_hash := "genesis"
    next_validator_set_hash := "genesis"
    consensus_hash := "genesis"
    app_hash := "genesis"
    signature := .raw "genesis"
    hash := "genesis"
    total_fees := 0
    block_reward := 0 }

/-- The state after `Blockchain.__init__` on empty storage
(`_load_state` with no metadata): genesis accounts funded, the genesis
block stored, metadata at height 0, `total_minted = GENESIS_SUPPLY`. -/
def genesisState (now : Int) : ChainState :=
  let ledger : Ledger :=
    { accounts := genesisAllocations.map
        (fun av => (av.1, { address := av.1, balance := av.2 })) }
  let g := genesisBlock now
  { config := defaultConfig
    ledger := ledger
    storageBlocks := [(0, g)]
    savedState := ledger
    metaHeight := 0
    metaLatestHash := g.hash
    metaTotalMinted := defaultConfig.GENESIS_SUPPLY
    blocks := [g]
    mempool := {}
    total_minted := defaultConfig.GENESIS_SUPPLY }

/-- Σ over all accounts of `balance + staked + reserved_balance`. -/
def sumFunds (lg : Ledger) : Int :=
  (lg.accounts.map
    (fun aa => aa.2.balance + aa.2.staked + aa.2.reserved_balance)).sum

/-! ## P2P overlay (`src/core/p2p.py`) -/

/-- The entry `process_message` stores in `self.peer_info` on a
handshake. -/
structure PeerInfo where
  node_id : String
  version : String
  chain_height : Int
deriving DecidableEq

/-- `Peer` (the dataclass in `src/core/p2p.py`). -/
structure Peer where
  address : String
  node_id : String
  chain_height : Int := 0
  last_seen : Int := 0
  connected : Bool := false
  version : String := "2.0.0"
deriving DecidableEq

/-- A frame written to a peer's stream (message type only; the payloads
are not observed by any claim). -/
structure SentMsg where
  dest : String
  mtype : String
deriving DecidableEq

/-- The observable state of a `P2PNode`: its identity, the peer-info and
peer tables, the set of open connections (`self.connections`, keyed by
address), the frames written out, and the local chain height used in
handshake replies. -/
structure P2PState where
  node_id : String
  peer_info : List (String × PeerInfo) := []
  peers : List (String × Peer) := []
  connections : List String := []
  outbox : List SentMsg := []
  chain_height : Int := 0
deriving DecidableEq

/-- The `handshake` branch of `P2PNode.process_message`.  The sender's
info is recorded in `peer_info` first; if the advertised `node_id` equals
the node's own id the handler merely logs "closing connection" and
returns — it does NOT close the writer, remove the address from
`self.connections`, or stop the per-connection read loop.  Otherwise the
peer is recorded and (when the address has a writer) a handshake reply
and a `peers` list are sent. -/
def process_handshake (s : P2PState) (peer_addr : String)
    (sender_node_id : String) (sender_height : Int) (version : String)
    (now : Int) : P2PState :=
  let info : PeerInfo :=
    { node_id := sender_node_id, version := version,
      chain_height := sender_height }
  let s := { s with peer_info := aset s.peer_info peer_addr info }
  if sender_node_id = s.node_id then s
  else
    let p : Peer :=
      { address := peer_addr, node_id := sender_node_id,
        chain_height := sender_height, last_seen := now,
        connected := true, version := version }
    let s := { s with peers := aset s.peers peer_addr p }
    let s :=
      if peer_addr ∈ s.connections then
        { s with outbox := s.outbox ++ [{ dest := peer_addr, mtype := "handshake" }] }
      else s
    let s :=
      if peer_addr ∈ s.connections then
        { s with outbox := s.outbox ++ [{ dest := peer_addr, mtype := "peers" }] }
      else s
    s

/-! ## Spec-side characterizations (written from the claims' wording, for
comparison against the source embeddings above) -/

/-- The transactions "forming a contiguous nonce sequence starting at
`expected`" in a sender's list: the longest prefix whose `i`-th element
has nonce `expected + i` (the claim's per-sender harvest for C5). -/
def contigRun (expected : Int) (txs : List Transaction) :
    List Transaction :=
  (txs.enum.takeWhile (fun p => decide (p.2.nonce = expected + (p.1 : Int)))).map
    (·.2)

/-- Resolve a sender's txid list through the primary map. -/
def senderPoolTxs (transactions : List (TxPayload × Transaction))
    (tids : List TxPayload) : List Transaction :=
  tids.filterMap (plookup transactions)

/-- The claim's description of the C5 harvest: per sender, exactly the
contiguous-nonce run starting at `expected_nonces.get(sender, 0)`. -/
def specHarvest (mp : Mempool)
    (expected_nonces : List (String × Int)) : List Transaction :=
  mp.by_sender.flatMap
    (fun sp => contigRun ((alookup expected_nonces sp.1).getD 0)
      (senderPoolTxs mp.transactions sp.2))

/-- Well-formedness of a mempool's sender index: every listed txid is
present in the primary map (an invariant of every state `Mempool.add` and
`Mempool.remove` build; its violation would raise `KeyError` in the
source). -/
def Mempool.WellFormed (mp : Mempool) : Prop :=
  ∀ sp ∈ mp.by_sender, ∀ tid ∈ sp.2, (plookup mp.transactions tid).isSome

instance (mp : Mempool) : Decidable mp.WellFormed := by
  unfold Mempool.WellFormed
  infer_instance

/-- The claimed C4 reward formula: `era = (height+1) / HALVING_INTERVAL`,
reward `INITIAL_BLOCK_REWARD / 2^era` floored at 1 and clamped to the
remaining supply.  Spec-side definition. -/
def claimReward (cfg : BlockchainConfig) (total_minted : Int)
    (height : Nat) : Int :=
  let era := (height + 1) / cfg.HALVING_INTERVAL
  let reward := max 1 (cfg.INITIAL_BLOCK_REWARD / (2 ^ era : Int))
  min reward (cfg.MAX_SUPPLY - total_minted)

/-- The amended C4 reward formula: `era = height / HALVING_INTERVAL`
(floored division on the block's own height), reward
`INITIAL_BLOCK_REWARD / 2^era` floored at 1; `get_block_reward` returns
exactly this whenever it does not overshoot the supply cap. -/
def rawReward (cfg : BlockchainConfig) (height : Nat) : Int :=
  max 1 (cfg.INITIAL_BLOCK_REWARD / (2 ^ (height / cfg.HALVING_INTERVAL) : Int))

/-! ## Concrete fixtures for counterexamples and witnesses -/

/-- The Merkle leaf list `["a", "b", "c"]` (three transaction hashes). -/
def leaves3 : List HashV := [.str "a", .str "b", .str "c"]

/-- A test keypair. -/
def kp0 : KeyPair := { private_key := "k0priv", public_key := "k0pub" }

/-- A plain transfer transaction (unsigned). -/
def tx0 : Transaction :=
  { sender := "0xacffecb00b07a53d61c38edccd7f74de83e36bf0"
    nonce := 0
    tx_type := "transfer"
    amount := 5
    recipient := some "0x8aa829da6b4a5be2789e3ddeff569d6248e3e503"
    fee := 1
    gas_limit := 100000
    timestamp := 42 }

/-- The genesis founder address. -/
def founderAddr : String := "0xacffecb00b07a53d61c38edccd7f74de83e36bf0"

/-- A signed transfer from the funded founder account whose nonce is
`ledger.nonce(sender) + 1` (one above the expected 0): the C3 gap
transaction. -/
def gapTx : Transaction :=
  Transaction.sign
    { sender := founderAddr
      nonce := 1
      tx_type := "transfer"
      amount := 100
      recipient := some "0x8aa829da6b4a5be2789e3ddeff569d6248e3e503"
      fee := 10
      gas_limit := 100000
      timestamp := 50 }
    kp0

/-- An unsigned, wrong-nonce transaction used inside `badBlock`. -/
def badTx : Transaction :=
  { sender := founderAddr
    nonce := 99
    tx_type := "transfer"
    amount := 1
    recipient := some "0x8aa829da6b4a5be2789e3ddeff569d6248e3e503"
    fee := 3
    gas_limit := 100000
    timestamp := 60 }

/-- A block at the correct height with the correct `prev_hash` but with
no signature, an absurd timestamp, and an invalid transaction: exercises
which checks `add_block` actually performs. -/
def badBlock : Block :=
  { height := 1
    prev_hash := "genesis"
    timestamp := -1000000
    proposer := founderAddr
    proposer_pubkey := ""
    transactions := [badTx]
    tx_root := zeros64
    signature := .empty
    hash := "h1"
    total_fees := 3
    block_reward := 5 }

/-- A block whose height is wrong (fails `_validate_block`). -/
def wrongHeightBlock : Block :=
  { height := 5
    prev_hash := "genesis"
    timestamp := 0
    proposer := founderAddr
    hash := "h5" }

/-- A valid next block carrying the reward `get_block_reward` computes
for height 1 under the default config (C2 witness fixture). -/
def rewardBlock : Block :=
  { height := 1
    prev_hash := "genesis"
    timestamp := 10
    proposer := founderAddr
    hash := "h1r"
    block_reward := 10 ^ 8 }

/-- The claim-C4 configuration: `HALVING_INTERVAL = 4`,
`INITIAL_BLOCK_REWARD = 8`. -/
def cfg4 : BlockchainConfig :=
  { defaultConfig with HALVING_INTERVAL := 4, INITIAL_BLOCK_REWARD := 8 }

/-- A ledger with one registered validator (stake 100000) and one plain
account, for the C10 witness. -/
def slashLedger : Ledger :=
  { accounts := [("0xuser", { address := "0xuser", balance := 77 })]
    validators := [("0xval",
      { address := "0xval", public_key := "vpub", stake := 100000 })] }

/-- A P2P node state with one open connection, for the C9 evaluation. -/
def p2p0 : P2PState :=
  { node_id := "selfnodeid16char"
    connections := ["10.0.0.2:26656"] }

/-- A small well-formed mempool: sender `s1` holds nonces 0 (fee 5),
1 (fee 1) and 3 (fee 9) — a gap at nonce 2 — and sender `s2` holds
nonce 0 (fee 7).  C5 witness fixture. -/
def mtx (sender : String) (nonce fee : Int) : Transaction :=
  { sender := sender, nonce := nonce, tx_type := "transfer", fee := fee }

/-- The C5 witness mempool (indexes laid out as `Mempool.add` would). -/
def mp0 : Mempool :=
  let t10 := mtx "s1" 0 5
  let t11 := mtx "s1" 1 1
  let t13 := mtx "s1" 3 9
  let t20 := mtx "s2" 0 7
  { transactions := [(t10.txid, t10), (t11.txid, t11), (t13.txid, t13),
      (t20.txid, t20)]
    by_sender := [("s1", [t10.txid, t11.txid, t13.txid]),
      ("s2", [t20.txid])]
    by_fee := [(9, t13.txid), (7, t20.txid), (5, t10.txid), (1, t11.txid)]
    insertion_time := [(t10.txid, 1), (t11.txid, 2), (t13.txid, 3),
      (t20.txid, 4)] }

/-! ## Helper lemmas -/

/-- `aset` leaves the binding of every other key unchanged. -/
theorem alookup_aset_ne {α : Type} (l : List (String × α)) (k a : String)
    (v : α) (h : a ≠ k) : alookup (aset l k v) a = alookup l a := by
  induction l with
  | nil => simp [aset, alookup, h]
  | cons kv rest ih =>
      by_cases hk : k = kv.1
      · have hak : a ≠ kv.1 := fun ha => h (ha.trans hk.symm)
        simp [aset, hk, alookup, h, hak]
      · by_cases ha : a = kv.1
        · simp [aset, hk, alookup, ha]
        · simp [aset, hk, alookup, ha, ih]

/-- `aset` makes the key map to the new value. -/
theorem alookup_aset_self {α : Type} (l : List (String × α)) (k : String)
    (v : α) : alookup (aset l k v) k = some v := by
  induction l with
  | nil => simp [aset, alookup]
  | cons kv rest ih =>
      by_cases hk : k = kv.1
      · simp [aset, hk, alookup]
      · simp [aset, hk, alookup, ih]

/-- Python `int()` truncation agrees with the floor on non-negative
rationals. -/
theorem pyTrunc_eq_floor (q : ℚ) (h : 0 ≤ q) : pyTrunc q = ⌊q⌋ := by
  unfold pyTrunc
  rw [Int.tdiv_eq_ediv (by exact_mod_cast Rat.num_nonneg.mpr h)
    (by positivity)]
  rw [Rat.floor_def]

/-- Accumulating `acc ++ f x` over a list is flat-mapping. -/
theorem foldl_append_eq_flatMap {α β : Type} (f : α → List β)
    (l : List α) (init : List β) :
    l.foldl (fun acc x => acc ++ f x) init = init ++ l.flatMap f := by
  induction l generalizing init with
  | nil => simp
  | cons x rest ih => simp [List.foldl_cons, ih, List.flatMap_cons]

/-! ## Claim C8 -/

/-- C8 counterexample: for a plain transfer with no data and no storage
traffic the source computes 3500 gas (it adds the unconditional
`TX_BASE = 1000` on top of the per-type cost), while the claimed formula
gives 2500; so the claim is false at this input. -/
theorem C8_counterexample :
    calculate_tx_gas defaultGasConfig "transfer" 0 0 0 = 3500 ∧
    claimTxGas "transfer" 0 0 0 = 2500 ∧
    calculate_tx_gas defaultGasConfig "transfer" 0 0 0 ≠
      claimTxGas "transfer" 0 0 0 := by
  decide

/-- C8 (amended): for every transaction type and sizes, the computed gas
equals `TX_BASE` (1000) plus the claim's per-type base cost (transfer
2000; stake/unstake 5000; delegate/undelegate 3000; vote 1000; contract
10000; other 1000) plus `data_size × 10` plus the storage read/write
costs plus the signature-verification constant 500. -/
theorem C8_gas_formula (tx_type : String) (ds sw sr : Int) :
    calculate_tx_gas defaultGasConfig tx_type ds sw sr =
      1000 + claimTxGas tx_type ds sw sr := by
  unfold calculate_tx_gas claimTxGas GasConfig.get_tx_type_cost
    claimTypeCost defaultGasConfig
  split_ifs <;> ring

/-! ## Claim C10 -/

/-- C10: `Ledger.slash_validator` on an unregistered address returns 0
and leaves the whole ledger unchanged; on a registered validator it
returns `⌊stake × fraction⌋` (for non-negative stake and fraction,
matching Python's `int()` truncation of the product) and decrements only
that validator's stake by exactly that amount, leaving every account and
every other validator untouched. -/
theorem C10_slash_validator (lg : Ledger) (addr : String) (fraction : ℚ) :
    (alookup lg.validators addr = none →
      lg.slash_validator addr fraction = (lg, 0)) ∧
    (∀ v : Validator, alookup lg.validators addr = some v →
      0 ≤ fraction → 0 ≤ v.stake →
      (lg.slash_validator addr fraction).2 = ⌊(v.stake : ℚ) * fraction⌋ ∧
      (lg.slash_validator addr fraction).1.accounts = lg.accounts ∧
      (lg.slash_validator addr fraction).1.validators =
        aset lg.validators addr
          { v with stake := v.stake - ⌊(v.stake : ℚ) * fraction⌋ } ∧
      (∀ a, a ≠ addr →
        alookup (lg.slash_validator addr fraction).1.validators a =
          alookup lg.validators a)) := by
  constructor
  · intro hnone
    unfold Ledger.slash_validator
    rw [hnone]
  · intro v hv hf hs
    have hq : (0 : ℚ) ≤ (v.stake : ℚ) * fraction := by
      have : (0 : ℚ) ≤ (v.stake : ℚ) := by exact_mod_cast hs
      exact mul_nonneg this hf
    have htr : pyTrunc ((v.stake : ℚ) * fraction) = ⌊(v.stake : ℚ) * fraction⌋ :=
      pyTrunc_eq_floor _ hq
    unfold Ledger.slash_validator
    rw [hv]
    refine ⟨by simp [htr], rfl, by simp [htr], ?_⟩
    intro a ha
    simpa using alookup_aset_ne lg.validators addr a _ ha

/-- C10 witness: slashing the registered validator (stake 100000) by
1/20 yields 5000 and leaves the accounts unchanged, while slashing an
unregistered address is a no-op returning 0. -/
theorem C10_witness :
    (slashLedger.slash_validator "0xval" (1/20)).2 = 5000 ∧
    (slashLedger.slash_validator "0xval" (1/20)).1.accounts =
      slashLedger.accounts ∧
    slashLedger.slash_validator "0xnone" (1/20) = (slashLedger, 0) := by
  have h2 := (C10_slash_validator slashLedger "0xval" (1/20)).2
    { address := "0xval", public_key := "vpub", stake := 100000 }
    (by decide) (by norm_num) (by decide)
  have hfloor : ⌊((100000 : Int) : ℚ) * (1/20)⌋ = (5000 : Int) := by
    norm_num
  have h1 := (C10_slash_validator slashLedger "0xnone" (1/20)).1
    (by decide)
  exact ⟨by rw [h2.1]; exact_mod_cast hfloor, h2.2.1, h1⟩

/-! ## Claim C7 -/

/-- C7 counterexample: after signing `tx0`, bumping `gas_price` (a field
the signable payload does not contain) leaves `verify_signature` true,
while the claim asserts that modifying any single field — explicitly
including `gas_price` — makes it false. -/
theorem C7_counterexample :
    (tx0.sign kp0).verify_signature = true ∧
    ({ tx0.sign kp0 with
        gas_price := (tx0.sign kp0).gas_price + 1 }.verify_signature
      = true) := by
  decide

/-- C7 (amended): signing then verifying with the matching keypair
returns true; and for a transaction carrying the same signature and
sender pubkey as the signed one, verification succeeds exactly when the
ten `payload()` fields (sender, sender_pubkey, nonce, tx_type, amount,
recipient, fee, gas_limit, data, timestamp) are unchanged — so modifying
any payload field invalidates the signature, while `gas_price`, the
contract fields, the batch fields, `version` and `extra_data` are not
covered by it. -/
theorem C7_sign_verify (tx : Transaction) (kp : KeyPair) :
    (tx.sign kp).verify_signature = true ∧
    (∀ t' : Transaction, t'.signature = (tx.sign kp).signature →
      t'.sender_pubkey = (tx.sign kp).sender_pubkey →
      (t'.verify_signature = true ↔ t'.payload = (tx.sign kp).payload)) := by
  constructor
  · simp [Transaction.sign, Transaction.verify_signature, verifySig,
      Transaction.payload]
  · intro t' hsig hpk
    have hsig' : t'.signature =
        .made kp.public_key { tx.payload with sender_pubkey := some kp.public_key } := by
      simpa [Transaction.sign] using hsig
    have hpk' : t'.sender_pubkey = some kp.public_key := by
      simpa [Transaction.sign] using hpk
    have hpayload : (tx.sign kp).payload =
        { tx.payload with sender_pubkey := some kp.public_key } := by
      simp [Transaction.sign, Transaction.payload]
    rw [Transaction.verify_signature, hsig', hpk', hpayload]
    simp [verifySig, eq_comm]

/-- C7 witness: at the concrete transaction `tx0` and keypair `kp0`,
sign-then-verify is true, and tampering with the `fee` payload field
makes verification false. -/
theorem C7_witness :
    (tx0.sign kp0).verify_signature = true ∧
    ({ tx0.sign kp0 with fee := 777 }.verify_signature = false) := by
  refine ⟨(C7_sign_verify tx0 kp0).1, ?_⟩
  have h := (C7_sign_verify tx0 kp0).2 { tx0.sign kp0 with fee := 777 }
    rfl rfl
  have hne : ({ tx0.sign kp0 with fee := 777 } : Transaction).payload ≠
      (tx0.sign kp0).payload := by decide
  rcases hb : ({ tx0.sign kp0 with fee := 777 } : Transaction).verify_signature with _ | _
  · rfl
  · exact absurd (h.mp hb) hne

/-! ## Claim C6 -/

/-- C6: the code contradicts the claim (and the SPV purpose its own
docstrings state).  For the three-leaf list `["a","b","c"]` the build
step duplicates the last element of an odd level before hashing, but
`get_proof` walks the recorded (unduplicated) level and silently omits
the missing sibling, so the proof for index 2 lacks the `hash(c+c)` step:
`verify_proof` returns false for the last transaction while an index in
an even position (index 0) still verifies. -/
theorem C6_code_bug :
    (verify_proof (.str "a") (get_proof (buildTree leaves3).1 0)
      (buildTree leaves3).2 = true) ∧
    (verify_proof (.str "c") (get_proof (buildTree leaves3).1 2)
      (buildTree leaves3).2 = false) := by
  decide

/-! ## Claim C9 -/

/-- C9: the code contradicts the claim (and its own log line "Received
handshake from self, closing connection").  Processing a handshake whose
`node_id` equals the node's own id records the peer's info and then
merely returns: the address stays in `self.connections`, nothing is sent,
and no close happens — the connection is NOT terminated. -/
theorem C9_code_bug :
    (process_handshake p2p0 "10.0.0.2:26656" "selfnodeid16char" 7 "2.0.0"
        100).connections = p2p0.connections ∧
    (process_handshake p2p0 "10.0.0.2:26656" "selfnodeid16char" 7 "2.0.0"
        100).outbox = [] ∧
    alookup (process_handshake p2p0 "10.0.0.2:26656" "selfnodeid16char" 7
        "2.0.0" 100).peer_info "10.0.0.2:26656" =
      some { node_id := "selfnodeid16char", version := "2.0.0",
             chain_height := 7 } := by
  decide

/-! ## Claim C4 -/

/-- C4 counterexample: with `HALVING_INTERVAL = 4` and
`INITIAL_BLOCK_REWARD = 8` (supply far from the cap) the source's reward
at height 3 is 8 while the claim's formula (`era = (height+1)/4`) gives
4, and the rewards at heights 1..12 are `8,8,8,4,4,4,4,2,2,2,2,1`, not
the claimed `8,8,8,8,4,4,4,4,2,2,2,2`. -/
theorem C4_counterexample :
    get_block_reward cfg4 0 3 = 8 ∧
    claimReward cfg4 0 3 = 4 ∧
    get_block_reward cfg4 0 3 ≠ claimReward cfg4 0 3 ∧
    (List.range 12).map (fun i => get_block_reward cfg4 0 (i + 1)) =
      [8, 8, 8, 4, 4, 4, 4, 2, 2, 2, 2, 1] ∧
    (List.range 12).map (fun i => get_block_reward cfg4 0 (i + 1)) ≠
      [8, 8, 8, 8, 4, 4, 4, 4, 2, 2, 2, 2] := by
  decide

/-- C4 (amended): the reward for a block at height `h` uses
`era = h / HALVING_INTERVAL` (floor division on the block's own height):
whenever the unclamped value does not overshoot the supply cap,
`get_block_reward` returns `max 1 (INITIAL_BLOCK_REWARD / 2^era)`; with
`HALVING_INTERVAL = 4` and `INITIAL_BLOCK_REWARD = 8` the rewards at
heights 1..12 are `8,8,8,4,4,4,4,2,2,2,2,1`. -/
theorem C4_reward_halving :
    ((List.range 12).map (fun i => get_block_reward cfg4 0 (i + 1)) =
      [8, 8, 8, 4, 4, 4, 4, 2, 2, 2, 2, 1]) ∧
    ∀ (cfg : BlockchainConfig) (tm : Int) (h : Nat),
      tm + rawReward cfg h ≤ cfg.MAX_SUPPLY →
      get_block_reward cfg tm h = rawReward cfg h := by
  refine ⟨by decide, ?_⟩
  intro cfg tm h hle
  unfold rawReward at hle
  unfold get_block_reward rawReward
  dsimp only
  generalize cfg.INITIAL_BLOCK_REWARD / (2 ^ (h / cfg.HALVING_INTERVAL) : Int) = r0
    at hle ⊢
  split_ifs <;> omega

/-- C4 witness: the amended formula instantiated at the claim's
configuration, height 1 and zero minted supply. -/
theorem C4_witness :
    0 + rawReward cfg4 1 ≤ cfg4.MAX_SUPPLY ∧
    get_block_reward cfg4 0 1 = rawReward cfg4 1 := by
  exact ⟨by decide, C4_reward_halving.2 cfg4 0 1 (by decide)⟩

/-! ## Claim C2 -/

/-- C2 counterexample: already at genesis the conservation equation
fails — the six genesis allocations sum to 16,300,000 UNM (in base
units) while `total_minted` is set to `GENESIS_SUPPLY` = 16,400,000 UNM,
a 100,000 UNM discrepancy. -/
theorem C2_counterexample :
    sumFunds (genesisState 0).ledger = 16300000 * 10 ^ 8 ∧
    (genesisState 0).total_minted = 16400000 * 10 ^ 8 ∧
    sumFunds (genesisState 0).ledger ≠ (genesisState 0).total_minted := by
  decide

/-- `add_block` changes `total_minted` exactly by the block's reward when
the block validates and the reward is positive. -/
theorem add_block_total_minted (s : ChainState) (b : Block) :
    (s.add_block b).1.total_minted =
      if s.validate_block b = true ∧ b.block_reward > 0 then
        s.total_minted + b.block_reward
      else s.total_minted := by
  unfold ChainState.add_block
  by_cases hv : s.validate_block b
  · by_cases hr : b.block_reward > 0 <;> simp [hv, hr]
  · simp [hv]

/-- `get_block_reward` never lets `total_minted` pass the cap: its clamp
guarantees `tm + reward ≤ MAX_SUPPLY` whenever `tm ≤ MAX_SUPPLY`. -/
theorem get_block_reward_le (cfg : BlockchainConfig) (tm : Int) (h : Nat)
    (hle : tm ≤ cfg.MAX_SUPPLY) :
    tm + get_block_reward cfg tm h ≤ cfg.MAX_SUPPLY := by
  unfold get_block_reward
  dsimp only
  generalize cfg.INITIAL_BLOCK_REWARD / (2 ^ (h / cfg.HALVING_INTERVAL) : Int) = r0
  split_ifs <;> omega

/-- C2 (amended): at genesis `total_minted = GENESIS_SUPPLY ≤ MAX_SUPPLY`
but the account funds sum to `GENESIS_SUPPLY − 100,000 UNM`, so the
conservation equation does NOT hold; the cap half of the claim survives:
whenever a committed block's reward is computed by `get_block_reward`,
`total_minted` stays ≤ `MAX_SUPPLY`. -/
theorem C2_supply_invariant :
    ((genesisState 0).total_minted = defaultConfig.GENESIS_SUPPLY ∧
     (genesisState 0).total_minted ≤ defaultConfig.MAX_SUPPLY ∧
     sumFunds (genesisState 0).ledger =
       defaultConfig.GENESIS_SUPPLY - 100000 * 10 ^ 8) ∧
    ∀ (s : ChainState) (b : Block) (h : Nat),
      s.total_minted ≤ s.config.MAX_SUPPLY →
      b.block_reward = get_block_reward s.config s.total_minted h →
      (s.add_block b).1.total_minted ≤ s.config.MAX_SUPPLY := by
  refine ⟨by decide, ?_⟩
  intro s b h hle hbr
  rw [add_block_total_minted]
  split_ifs with hc
  · rw [hbr]
    exact get_block_reward_le s.config s.total_minted h hle
  · exact hle

/-- C2 witness: committing `rewardBlock` (whose reward is what
`get_block_reward` yields for height 1) on the genesis state keeps
`total_minted` within the cap. -/
theorem C2_witness :
    ((genesisState 0).add_block rewardBlock).1.total_minted ≤
      (genesisState 0).config.MAX_SUPPLY := by
  exact C2_supply_invariant.2 (genesisState 0) rewardBlock 1 (by decide)
    (by decide)

/-! ## Claim C1 -/

/-- C1 counterexample: `badBlock` has no signature (verification fails),
an absurd timestamp, and contains a transaction that is invalid under the
pre-block ledger, yet `add_block` on the genesis state commits it
(returns true), because `_validate_block` checks only the height and the
previous hash.  The claim's "only if" is false at this input. -/
theorem C1_counterexample :
    badBlock.verify_signature = false ∧
    (ChainState.validate_transaction (genesisState 0).ledger badTx).2 =
      false ∧
    ((genesisState 0).add_block badBlock).2 = true := by
  decide

/-- C1 (amended): commit-time validation of an incoming block consists of
exactly the two `_validate_block` checks — `height == current + 1` and
`prev_hash == hash of the stored block at height − 1` (the 64-zero
sentinel when absent); `add_block` succeeds iff they pass, and a block
failing them is not committed with the state left completely unchanged.
Timestamp drift, the proposer signature and per-transaction validity are
not checked at commit time. -/
theorem C1_add_block_checks (s : ChainState) (b : Block) :
    ((s.add_block b).2 = s.validate_block b) ∧
    (s.validate_block b = false → s.add_block b = (s, false)) := by
  unfold ChainState.add_block
  by_cases hv : s.validate_block b <;> simp [hv]

/-- C1 witness: a block at the wrong height fails validation on the
genesis state and `add_block` leaves the state untouched. -/
theorem C1_witness :
    (genesisState 0).validate_block wrongHeightBlock = false ∧
    (genesisState 0).add_block wrongHeightBlock = (genesisState 0, false) := by
  refine ⟨by decide, ?_⟩
  exact (C1_add_block_checks (genesisState 0) wrongHeightBlock).2 (by decide)

/-! ## Claim C3 -/

/-- C3 counterexample: `gapTx` is signed, passes the gas-floor and
balance checks, and has nonce `ledger.nonce(sender) + 1`, yet
`add_transaction` rejects it and the mempool stays empty — the claim says
it should be admitted to the mempool. -/
theorem C3_counterexample :
    gapTx.verify_signature = true ∧
    gapTx.nonce = ((genesisState 0).ledger.get_nonce gapTx.sender).2 + 1 ∧
    gapTx.gas_limit ≥
      calculate_tx_gas defaultGasConfig gapTx.tx_type (jsonLen gapTx.data) 0 0 ∧
    ((genesisState 0).ledger.get_balance gapTx.sender).2 ≥
      gapTx.amount + gapTx.fee +
        calculate_fee defaultGasConfig
          (calculate_tx_gas defaultGasConfig gapTx.tx_type
            (jsonLen gapTx.data) 0 0) ∧
    ((genesisState 0).add_transaction gapTx 1000).2 = false ∧
    ((genesisState 0).add_transaction gapTx 1000).1.mempool.transactions =
      [] := by
  decide

/-- C3 (amended): `add_transaction` admits a signed transaction only when
its nonce EQUALS the sender's current ledger nonce; any other nonce
(including `expected + k`, k ≥ 1) is rejected outright and the mempool is
left unchanged — gapped-nonce transactions never reach the pool
(`Mempool.add` itself performs no nonce check, but the only admission
path rejects them first). -/
theorem C3_nonce_gap_rejected (s : ChainState) (tx : Transaction)
    (now : Int) (hsig : tx.verify_signature = true)
    (hnonce : tx.nonce ≠ (s.ledger.get_nonce tx.sender).2) :
    (s.add_transaction tx now).2 = false ∧
    (s.add_transaction tx now).1.mempool = s.mempool := by
  unfold ChainState.add_transaction
  rcases hg : s.ledger.get_nonce tx.sender with ⟨lg, en⟩
  rw [hg] at hnonce
  simp only at hnonce
  simp [hsig, hg, hnonce]

/-- C3 witness: the amended rejection at the concrete gap transaction on
the genesis state. -/
theorem C3_witness :
    ((genesisState 0).add_transaction gapTx 1000).2 = false ∧
    ((genesisState 0).add_transaction gapTx 1000).1.mempool =
      (genesisState 0).mempool := by
  exact C3_nonce_gap_rejected (genesisState 0) gapTx 1000 (by decide)
    (by decide)

/-! ## Claim C5 -/

/-- Shifting the enumeration start is shifting the expected nonce. -/
theorem contigRun_enumFrom (l : List Transaction) (exp : Int) (n : Nat) :
    ((List.enumFrom n l).takeWhile
        (fun p => decide (p.2.nonce = exp + (p.1 : Int)))).map (·.2) =
      contigRun (exp + n) l := by
  induction l generalizing exp n with
  | nil => simp [contigRun]
  | cons x rest ih =>
      have e1 := ih exp (n + 1)
      have e2 := ih (exp + (n : Int)) 1
      simp only [contigRun, List.enum_cons, List.enumFrom_cons,
        List.takeWhile_cons]
      by_cases hx : x.nonce = exp + n
      · simp only [hx, Nat.cast_zero, add_zero, decide_eq_true_eq,
          if_pos, List.map_cons, if_true]
        congr 1
        rw [e1, e2]
        congr 1
        push_cast
        ring
      · rw [if_neg (by simpa using hx), if_neg (by simpa using hx)]

/-- `contigRun` unfolded one step: keep the head exactly when its nonce
is the expected one, then continue with the successor nonce. -/
theorem contigRun_cons (exp : Int) (x : Transaction)
    (l : List Transaction) :
    contigRun exp (x :: l) =
      if x.nonce = exp then x :: contigRun (exp + 1) l else [] := by
  have e2 := contigRun_enumFrom l exp 1
  simp only [contigRun, List.enum_cons, List.takeWhile_cons]
  by_cases hx : x.nonce = exp
  · rw [if_pos (by simpa using hx), if_pos hx, List.map_cons, e2]
    simp [contigRun]
  · rw [if_neg (by simpa using hx), if_neg hx]
    rfl

/-- Flat-mapping respects pointwise-equal functions. -/
theorem flatMap_congr_mem {α β : Type} (l : List α) (f g : α → List β)
    (h : ∀ x ∈ l, f x = g x) : l.flatMap f = l.flatMap g := by
  induction l with
  | nil => rfl
  | cons x rest ih =>
      simp only [List.flatMap_cons, h x (List.mem_cons_self x rest)]
      rw [ih fun y hy => h y (List.mem_cons_of_mem x hy)]

/-- The source's per-sender walk computes exactly the claim's
contiguous-nonce run over the resolved transaction list, provided every
listed txid resolves (the mempool invariant). -/
theorem readyWalk_eq_contigRun (tr : List (TxPayload × Transaction))
    (tids : List TxPayload)
    (h : ∀ tid ∈ tids, (plookup tr tid).isSome) (exp : Int) :
    readyWalk tr exp tids = contigRun exp (senderPoolTxs tr tids) := by
  induction tids generalizing exp with
  | nil => simp [readyWalk, senderPoolTxs, contigRun]
  | cons tid rest ih =>
      obtain ⟨tx, htx⟩ := Option.isSome_iff_exists.mp
        (h tid (List.mem_cons_self tid rest))
      have hrest : ∀ t ∈ rest, (plookup tr t).isSome :=
        fun t ht => h t (List.mem_cons_of_mem tid ht)
      rw [readyWalk, htx]
      have hpool : senderPoolTxs tr (tid :: rest) =
          tx :: senderPoolTxs tr rest := by
        simp [senderPoolTxs, List.filterMap_cons, htx]
      rw [hpool, contigRun_cons]
      by_cases hn : tx.nonce = exp
      · simp [hn, ih hrest]
      · simp [hn]

/-- C5: for every well-formed mempool, expected-nonce map and cap,
`get_ready_txs` returns exactly the claim's description — per sender the
contiguous-nonce run starting at `expected_nonces[sender]` (default 0,
stopping that sender at the first gap), the harvest ordered by descending
fee (stably) and truncated to `max_count`.  `get_ready_txs` reads the
pool without mutating it, so gapped-nonce transactions are neither
returned nor removed. -/
theorem C5_get_ready_txs (mp : Mempool)
    (expected_nonces : List (String × Int)) (max_count : Nat)
    (hwf : mp.WellFormed) :
    mp.get_ready_txs expected_nonces max_count =
      (sortByKey (fun tx => -tx.fee)
        (specHarvest mp expected_nonces)).take max_count := by
  unfold Mempool.get_ready_txs specHarvest
  dsimp only
  rw [foldl_append_eq_flatMap
    (fun sp => readyWalk mp.transactions
      ((alookup expected_nonces sp.1).getD 0) sp.2) mp.by_sender []]
  rw [List.nil_append]
  congr 2
  apply flatMap_congr_mem
  intro sp hsp
  exact readyWalk_eq_contigRun mp.transactions sp.2 (hwf sp hsp) _

/-- C5 witness: the concrete pool `mp0` (sender s1 with nonces 0,1,3 and
a gap at 2; sender s2 with nonce 0) with empty expected-nonce map. -/
theorem C5_witness :
    Mempool.WellFormed mp0 ∧
    mp0.get_ready_txs [] 10 =
      (sortByKey (fun tx => -tx.fee) (specHarvest mp0 [])).take 10 :=
  ⟨by decide, C5_get_ready_txs mp0 [] 10 (by decide)⟩

end Unicrium
